import Mathlib

/-!
Verification development for the boltd device-manager core.

This file gives a shallow embedding of the code in `src/boltd/bolt-manager.c`
and `src/boltd/bolt-sysfs.c` (an early version of the bolt Thunderbolt
daemon) and proves, or refutes, the claims of the accompanying
natural-language specification about it.

Modelling conventions:
* A udev device handle is a record of its sysfs attributes (a partial map
  from attribute names to values), the errno a failed attribute read leaves
  behind (always positive, as guaranteed by POSIX), its syspath and sysname,
  its lstat time stamps, and the `unique_id` of its udev parent.
* GError values are modelled by their domain (`BOLT_ERROR` versus
  `G_IO_ERROR`) and a numeric code; human-readable messages are elided since
  no claim inspects them.
* The manager's observable side effects (idle-queued authorization requests,
  emitted D-Bus signals, unexport calls) are accumulated in explicit lists
  inside the manager state.
* Functions from files of the repository that are not under `src/`
  (`bolt-device.c`, `bolt-str.h`, `bolt-error.c`) are modelled from the
  specification; each such definition carries a doc comment starting with
  `Modelled from the spec:`.
-/

namespace Boltd

/-- Error domains distinguished by the embedded code: `BOLT_ERROR` (whose
code `BOLT_ERROR_UDEV` is the "UdevError" of the specification) and
`G_IO_ERROR` (errors derived from errno via `g_io_error_from_errno`). -/
inductive GErrorDomain where
  | boltError
  | gIoError
  deriving DecidableEq, Repr

/-- A GError value: the domain and a numeric code.  For `boltError` the code
is `BOLT_ERROR_UDEV` (modelled as 0); for `gIoError` the code is the errno
the error was derived from (the claims only inspect the domain, so the
`g_io_error_from_errno` translation table is not reproduced). -/
structure GErr where
  domain : GErrorDomain
  code : Int
  deriving DecidableEq, Repr

deriving instance DecidableEq for Except

/-- Code `BOLT_ERROR_UDEV` of the `BOLT_ERROR` domain (value per
`bolt-error.h`, which is not under `src/`; only the domain matters here). -/
def BOLT_ERROR_UDEV : Int := 0

/-- POSIX errno value ENOENT, tested for by `bolt_sysfs_read_boot_acl`. -/
def ENOENT : Nat := 2

/-- POSIX errno value EINVAL, the errno a failed integer parse leaves. -/
def EINVAL : Nat := 22

/-- Time stamps of an `lstat` call on a sysfs node (`tv_sec` fields). -/
structure StatTimes where
  ctim : Int
  atim : Int
  mtim : Int
  deriving DecidableEq, Repr

/-- A udev device handle, as consumed by `bolt-sysfs.c` and
`bolt-manager.c`.  `sysattr` is `udev_device_get_sysattr_value` (`none` for
an absent or unreadable attribute); `errnoOf a` is the (positive) errno such
a failed read leaves behind; `syspath`/`sysname` are
`udev_device_get_syspath`/`udev_device_get_sysname`; `stat` is the result of
`lstat` on the syspath (`none` when `lstat` fails); `parentUniqueId` is
`none` when `udev_device_get_parent` returns NULL, and otherwise the
parent's `unique_id` attribute value. -/
structure UdevDevice where
  sysattr : String → Option String
  errnoOf : String → Nat
  errnoPos : ∀ a, 0 < errnoOf a
  syspath : Option String
  sysname : Option String
  stat : Option StatTimes
  parentUniqueId : Option (Option String)

/-- Embedding of `sysfs_get_sysattr_value` (bolt-sysfs.c:49-72): reads an
attribute and on failure sets a `BOLT_ERROR`/`BOLT_ERROR_UDEV` error. -/
def sysfs_get_sysattr_value (d : UdevDevice) (attr : String) : Except GErr String :=
  match d.sysattr attr with
  | some v => Except.ok v
  | none => Except.error { domain := GErrorDomain.boltError, code := BOLT_ERROR_UDEV }

/-- Parses a non-empty list of decimal digits; `none` on any other input. -/
def parseDigits (ds : List Char) : Option Nat :=
  if ds.isEmpty then none
  else ds.foldl
    (fun acc c =>
      match acc with
      | none => none
      | some n => if '0' ≤ c ∧ c ≤ '9' then some (n * 10 + (c.toNat - 48)) else none)
    (some 0)

/-- Modelled from the spec: `bolt_str_parse_as_int` (`bolt-str.c`, not under
`src/`) parses a string as a signed decimal integer, failing on malformed
input. -/
def bolt_str_parse_as_int (s : String) : Option Int :=
  match s.toList with
  | '-' :: ds => (parseDigits ds).map (fun n => -(n : Int))
  | ds => (parseDigits ds).map (fun n => (n : Int))

/-- Embedding of `sysfs_get_sysattr_value_as_int` (bolt-sysfs.c:430-450):
returns the parsed attribute value, or `-errno` when the attribute cannot
be read or parsed (a failed parse leaves errno = EINVAL). -/
def sysfs_get_sysattr_value_as_int (d : UdevDevice) (attr : String) : Int :=
  match d.sysattr attr with
  | none => -(d.errnoOf attr : Int)
  | some s =>
    match bolt_str_parse_as_int s with
    | none => -(EINVAL : Int)
    | some v => v

/-- Embedding of `sysfs_get_sysattr_size` (bolt-sysfs.c:452-465): the
length of the attribute value, or `-errno` when it cannot be read. -/
def sysfs_get_sysattr_size (d : UdevDevice) (attr : String) : Int :=
  match d.sysattr attr with
  | none => -(d.errnoOf attr : Int)
  | some s => (s.length : Int)

/-- The `BoltStatTime` selector of `bolt_sysfs_device_get_time`. -/
inductive BoltStatTime where
  | ctime
  | atime
  | mtime
  deriving DecidableEq, Repr

/-- Embedding of `bolt_sysfs_device_get_time` (bolt-sysfs.c:84-122): the
selected `lstat` time stamp of the device's syspath, with 0 returned when
the syspath is absent, `lstat` fails, or the stamp is negative. -/
def bolt_sysfs_device_get_time (d : UdevDevice) (st : BoltStatTime) : Int :=
  match d.syspath with
  | none => 0
  | some _ =>
    match d.stat with
    | none => 0
    | some sb =>
      let ms : Int :=
        match st with
        | BoltStatTime.ctime => sb.ctim
        | BoltStatTime.atime => sb.atim
        | BoltStatTime.mtime => sb.mtim
      if ms < 0 then 0 else ms

/-- Link-speed record read by `bolt_sysfs_read_link_speed`. -/
structure BoltLinkSpeed where
  rxLanes : Int
  rxSpeed : Int
  txLanes : Int
  txSpeed : Int
  deriving DecidableEq, Repr

/-- Embedding of `bolt_sysfs_read_link_speed` (bolt-sysfs.c:467-489): each
of the four integer attributes, clamped to 0 when absent or negative. -/
def bolt_sysfs_read_link_speed (d : UdevDevice) : BoltLinkSpeed :=
  let rd : String → Int := fun a =>
    let res := sysfs_get_sysattr_value_as_int d a
    if res > 0 then res else 0
  { rxLanes := rd "rx_lanes", rxSpeed := rd "rx_speed",
    txLanes := rd "tx_lanes", txSpeed := rd "tx_speed" }

/-- The `BoltDevInfo` snapshot filled by `bolt_sysfs_info_for_device`. -/
structure BoltDevInfo where
  authorized : Int
  keysize : Int
  boot : Int
  ctim : Int
  full : Bool
  parent : Option String
  generation : Int
  syspath : Option String
  linkspeed : BoltLinkSpeed
  deriving DecidableEq, Repr

/-- Embedding of `bolt_sysfs_info_for_device` (bolt-sysfs.c:491-545).  On an
unreadable or unparseable `authorized` attribute it fails with a
`G_IO_ERROR`-domain error derived from errno (note: not `BOLT_ERROR_UDEV`).
Otherwise it fills the snapshot; in the non-full variant `ctim` stays at its
initialisation value -1 and the remaining full-only fields keep their
initialisation values (the C code leaves `linkspeed` untouched in that case;
it is zeroed here, and no claim inspects it in the non-full variant). -/
def bolt_sysfs_info_for_device (d : UdevDevice) (full : Bool) :
    Except GErr BoltDevInfo :=
  let auth := sysfs_get_sysattr_value_as_int d "authorized"
  if auth < 0 then
    Except.error { domain := GErrorDomain.gIoError, code := -auth }
  else
    let keysize := sysfs_get_sysattr_size d "key"
    let boot := sysfs_get_sysattr_value_as_int d "boot"
    if full = false then
      Except.ok { authorized := auth, keysize := keysize, boot := boot,
                  ctim := -1, full := false, parent := none, generation := 0,
                  syspath := none, linkspeed := ⟨0, 0, 0, 0⟩ }
    else
      let gen := sysfs_get_sysattr_value_as_int d "generation"
      Except.ok { authorized := auth, keysize := keysize, boot := boot,
                  ctim := bolt_sysfs_device_get_time d BoltStatTime.ctime,
                  full := true,
                  parent := match d.parentUniqueId with
                            | none => none
                            | some u => u,
                  generation := if gen > 0 then gen else 0,
                  syspath := d.syspath,
                  linkspeed := bolt_sysfs_read_link_speed d }

/-- Splits off everything up to the first comma: returns the leading
comma-free field together with (when a comma was found) the rest of the
string after that comma.  Helper for the `g_strsplit (val, ",", 1024)` call
in `bolt_sysfs_read_boot_acl`. -/
def splitFirstField : List Char → List Char × Option (List Char)
  | [] => ([], none)
  | c :: cs =>
    if c = ',' then ([], some cs)
    else
      let r := splitFirstField cs
      (c :: r.1, r.2)

/-- Comma-splitting with a fuel bound: with fuel `n` at most `n + 1` fields
are produced and the last field receives the unsplit remainder, matching
the `max_tokens` behaviour of GLib's `g_strsplit`. -/
def splitFields : Nat → List Char → List (List Char)
  | 0, cs => [cs]
  | n + 1, cs =>
    match splitFirstField cs with
    | (f, none) => [f]
    | (f, some rest) => f :: splitFields n rest

/-- Embedding of `g_strsplit (s, ",", maxTokens)` as used by
`bolt_sysfs_read_boot_acl`: the empty string yields no tokens, otherwise
the string is split on commas into at most `maxTokens` fields. -/
def g_strsplit_comma (s : String) (maxTokens : Nat) : List String :=
  if s.toList.isEmpty then []
  else (splitFields (maxTokens - 1) s.toList).map (fun l => String.mk l)

/-- Embedding of `g_strjoinv (",", acl)` as used by
`bolt_sysfs_write_boot_acl`. -/
def g_strjoinv_comma : List String → String
  | [] => ""
  | [s] => s
  | s :: rest => s ++ "," ++ g_strjoinv_comma rest

/-- Modelled from the spec: `bolt_strv_isempty` (`bolt-str.h`, not under
`src/`) — a string vector is empty when it is NULL or holds no elements;
this matches the source comment "if the attribute exists but is empty,
return NULL", since splitting the empty value yields no tokens. -/
def bolt_strv_isempty : Option (List String) → Bool
  | none => true
  | some l => l.isEmpty

/-- Embedding of `bolt_sysfs_read_boot_acl` (bolt-sysfs.c:547-573): read
`boot_acl`, split on commas (at most 1024 fields); an absent attribute is
an error only when errno differs from ENOENT; an empty result is reported
as `none` (the modelled NULL output list).  The error produced by
`bolt_error_for_errno` (`bolt-error.c`, not under `src/`) is modelled from
the spec as an errno-derived `G_IO_ERROR`-domain error. -/
def bolt_sysfs_read_boot_acl (d : UdevDevice) :
    Except GErr (Option (List String)) :=
  match d.sysattr "boot_acl" with
  | some v =>
    let acl := g_strsplit_comma v 1024
    if bolt_strv_isempty (some acl) then Except.ok none
    else Except.ok (some acl)
  | none =>
    if d.errnoOf "boot_acl" = ENOENT then Except.ok none
    else Except.error { domain := GErrorDomain.gIoError,
                        code := (d.errnoOf "boot_acl" : Int) }

/-- Embedding of `bolt_sysfs_write_boot_acl` (bolt-sysfs.c:575-591): the
attribute value written is the comma-joined list; the actual file write
(`bolt_file_write_all`, `bolt-io.c`, not under `src/`) persists exactly
this string to `<device>/boot_acl`. -/
def bolt_sysfs_write_boot_acl_value (acl : List String) : String :=
  g_strjoinv_comma acl

/-- Device status, from the specification's data model (the `BoltStatus`
enum of `bolt-enums.h` is not under `src/`). -/
inductive BoltStatus where
  | disconnected
  | connected
  | authError
  | authConnected
  | authConnectedSecure
  deriving DecidableEq, Repr

/-- Device policy, from the specification's data model. -/
inductive BoltPolicy where
  | default
  | manual
  | auto
  deriving DecidableEq, Repr

/-- Modelled from the spec: `bolt_status_is_authorized` — the predicate
"authorized" covers exactly `AuthConnected` and `AuthConnectedSecure`. -/
def bolt_status_is_authorized : BoltStatus → Bool
  | BoltStatus.authConnected => true
  | BoltStatus.authConnectedSecure => true
  | _ => false

/-- A device record, with the fields of `BoltDevice` (`bolt-device.c`, not
under `src/`) that the manager code reads: `uid`, `syspath` (present iff
connected), `status`, `policy`, `store` (the value of
`bolt_device_get_store`; positive iff a persistent record exists) and the
D-Bus `objectPath` assigned on export. -/
structure BoltDevice where
  uid : String
  syspath : Option String
  status : BoltStatus
  policy : BoltPolicy
  store : Nat
  objectPath : Option String
  deriving DecidableEq, Repr

/-- Modelled from the spec: `bolt_device_is_connected` — a device counts as
connected unless its status is `Disconnected` (the dispatcher routes events
for a "present but Disconnected" device to the attached path and events for
a present, connected device to the changed path). -/
def bolt_device_is_connected (dev : BoltDevice) : Bool :=
  dev.status ≠ BoltStatus.disconnected

/-- Modelled from the spec: `bolt_device_connected` — transitions
Disconnected → Connected, or directly to an authorized variant when sysfs
reports `authorized ≠ 0`, and refreshes the syspath from the udev device.
The secure variant is not distinguished here; no claim depends on it. -/
def bolt_device_connected (dev : BoltDevice) (udev : UdevDevice) : BoltDevice :=
  let auth := sysfs_get_sysattr_value_as_int udev "authorized"
  { dev with
    syspath := udev.syspath,
    status := if auth > 0 then BoltStatus.authConnected else BoltStatus.connected }

/-- Modelled from the spec: `bolt_device_disconnected` — transitions to
Disconnected, preserving uid, policy and stored; the syspath is cleared
(the spec's data model has syspath present iff connected). -/
def bolt_device_disconnected (dev : BoltDevice) : BoltDevice :=
  { dev with status := BoltStatus.disconnected, syspath := none }

/-- Modelled from the spec: `bolt_device_update_from_udev` — refreshes
status and syspath from the udev snapshot (the status mapping is the same
as on connect). -/
def bolt_device_update_from_udev (dev : BoltDevice) (udev : UdevDevice) : BoltDevice :=
  let auth := sysfs_get_sysattr_value_as_int udev "authorized"
  { dev with
    syspath := udev.syspath,
    status := if auth > 0 then BoltStatus.authConnected else BoltStatus.connected }

/-- Modelled from the spec: `bolt_device_new_for_udev` — materialises a
fresh record from a kernel event: status begins Connected (or an authorized
variant when sysfs already reports authorized), `stored = false`,
`policy = Default`; fails when the udev info snapshot cannot be read. -/
def bolt_device_new_for_udev (udev : UdevDevice) : Option BoltDevice :=
  match udev.sysattr "unique_id" with
  | none => none
  | some uid =>
    let auth := sysfs_get_sysattr_value_as_int udev "authorized"
    if auth < 0 then none
    else some { uid := uid, syspath := udev.syspath,
                status := if auth > 0 then BoltStatus.authConnected
                          else BoltStatus.connected,
                policy := BoltPolicy.default, store := 0, objectPath := none }

/-- The D-Bus signals the manager emits towards the IPC sink. -/
inductive BoltSignal where
  | deviceAdded (opath : String)
  | deviceRemoved (opath : String)
  deriving DecidableEq, Repr

/-- The manager state: the device table (`mgr->devices`) plus explicit logs
of the observable side effects — the uids handed to
`g_idle_add (authorize_device_idle, ...)`, the emitted D-Bus signals, and
the devices passed to `bolt_device_unexport`.  `busConnected` states
whether `g_dbus_interface_skeleton_get_connection` returns a connection. -/
structure BoltManager where
  devices : List BoltDevice
  authQueue : List String
  signals : List BoltSignal
  unexports : List String
  busConnected : Bool
  deriving DecidableEq, Repr

/-- Embedding of `bolt_manager_get_device_by_syspath`
(bolt-manager.c:478-496): the first table device whose (present) syspath
equals the argument. -/
def bolt_manager_get_device_by_syspath (mgr : BoltManager) (sysfs : String) :
    Option BoltDevice :=
  mgr.devices.find? (fun d =>
    match d.syspath with
    | some hv => hv == sysfs
    | none => false)

/-- Embedding of `bolt_manager_get_device_by_uid` (bolt-manager.c:498-512):
the first table device with the given uid. -/
def bolt_manager_get_device_by_uid (mgr : BoltManager) (uid : String) :
    Option BoltDevice :=
  mgr.devices.find? (fun d => d.uid == uid)

/-- Index of the last occurrence of a character in a list (the `strrchr`
of `bolt_manager_get_parent`). -/
def lastIdxOf (c : Char) : List Char → Option Nat
  | [] => none
  | x :: xs =>
    match lastIdxOf c xs with
    | some i => some (i + 1)
    | none => if x = c then some 0 else none

/-- The path truncation of `bolt_manager_get_parent` (bolt-manager.c:515-537)
as a pure function: `start = path + strlen ("/sys")`;
`pos = strrchr (start, '/')`; NULL when `pos` is NULL or `pos < start + 2`;
otherwise the path cut off at `pos` (`*pos = 0`). -/
def parentSyspath (s : String) : Option String :=
  match lastIdxOf '/' (s.toList.drop 4) with
  | none => none
  | some i => if i < 2 then none else some (String.mk (s.toList.take (4 + i)))

/-- The specification's description of the parent computation: strip the
sysfs mount point `"/sys"`, strip the trailing `/`-separated segment, and
use the remainder — still rooted at the mount point, since the table's
syspaths carry it — as the lookup key; none when no `/` remains after the
mount point or the truncated remainder is shorter than two characters. -/
def parent_syspath_claim (s : String) : Option String :=
  match lastIdxOf '/' (s.toList.drop 4) with
  | none => none
  | some i =>
    if ((s.toList.drop 4).take i).length < 2 then none
    else some (String.mk (s.toList.take 4 ++ (s.toList.drop 4).take i))

/-- Embedding of `bolt_manager_get_parent` (bolt-manager.c:515-537). -/
def bolt_manager_get_parent (mgr : BoltManager) (dev : BoltDevice) :
    Option BoltDevice :=
  match dev.syspath with
  | none => none
  | some s =>
    match parentSyspath s with
    | none => none
    | some p => bolt_manager_get_device_by_syspath mgr p

/-- Embedding of `bolt_manager_get_children` (bolt-manager.c:539-560): the
table devices whose computed parent is the target.  The C code compares
object pointers; under the table invariant that records are pairwise
distinct (uids are unique) this coincides with the value comparison used
here. -/
def bolt_manager_get_children (mgr : BoltManager) (target : BoltDevice) :
    List BoltDevice :=
  mgr.devices.filter (fun d => bolt_manager_get_parent mgr d == some target)

/-- Embedding of `maybe_authorize_device` (bolt-manager.c:601-622): skip
when the status is already authorized or the policy is not Auto; the
`g_return_if_fail (store > 0)` sanity check likewise returns without doing
anything; otherwise the device is handed to the idle queue. -/
def maybe_authorize_device (mgr : BoltManager) (dev : BoltDevice) : BoltManager :=
  if bolt_status_is_authorized dev.status = true ∨ dev.policy ≠ BoltPolicy.auto then
    mgr
  else if dev.store = 0 then
    mgr
  else
    { mgr with authQueue := mgr.authQueue ++ [dev.uid] }

/-- In-place mutation of the table device with the given uid (the C code
mutates the `BoltDevice` object the table points at; uids are the table's
primary key). -/
def updateDevice (mgr : BoltManager) (uid : String) (f : BoltDevice → BoltDevice) :
    BoltManager :=
  { mgr with devices := mgr.devices.map (fun d => if d.uid = uid then f d else d) }

/-- Embedding of `handle_udev_device_added` (bolt-manager.c:625-661):
construct a record, append it to the table, and—when a D-Bus connection is
present—export it and emit `DeviceAdded`.  The object-path scheme lives in
`bolt-device.c` (not under `src/`); no claim depends on its exact shape. -/
def handle_udev_device_added (mgr : BoltManager) (udev : UdevDevice) : BoltManager :=
  match bolt_device_new_for_udev udev with
  | none => mgr
  | some dev =>
    let mgr2 := { mgr with devices := mgr.devices ++ [dev] }
    if mgr2.busConnected = false then mgr2
    else
      let opath := "/org/freedesktop/Bolt/devices/" ++ dev.uid
      let mgr3 := updateDevice mgr2 dev.uid
        (fun d => { d with objectPath := some opath })
      { mgr3 with signals := mgr3.signals ++ [BoltSignal.deviceAdded opath] }

/-- Embedding of `handle_udev_device_changed` (bolt-manager.c:663-687):
refresh the record from udev; when the new status is authorized, run the
authorization check over every child. -/
def handle_udev_device_changed (mgr : BoltManager) (dev : BoltDevice)
    (udev : UdevDevice) : BoltManager :=
  let dev2 := bolt_device_update_from_udev dev udev
  let mgr2 := updateDevice mgr dev.uid (fun _ => dev2)
  if bolt_status_is_authorized dev2.status = false then mgr2
  else (bolt_manager_get_children mgr2 dev2).foldl maybe_authorize_device mgr2

/-- Embedding of `handle_udev_device_detached` (bolt-manager.c:751-763):
the record transitions to Disconnected and stays in the table. -/
def handle_udev_device_detached (mgr : BoltManager) (dev : BoltDevice) :
    BoltManager :=
  updateDevice mgr dev.uid bolt_device_disconnected

/-- Embedding of `g_ptr_array_remove_fast`: the removed slot is filled with
the last element and the array shrinks by one. -/
def g_ptr_array_remove_fast (l : List BoltDevice) (dev : BoltDevice) :
    List BoltDevice :=
  match l.findIdx? (fun d => d == dev) with
  | none => l
  | some i => (l.set i ((l.getLast?).getD dev)).dropLast

/-- Embedding of `hanlde_udev_device_removed` (bolt-manager.c:689-711, the
source spells it so): drop the record from the table; when it carries an
object path, emit `DeviceRemoved` and unexport it — when it carries none,
return right away without a signal. -/
def hanlde_udev_device_removed (mgr : BoltManager) (dev : BoltDevice) :
    BoltManager :=
  let mgr2 := { mgr with devices := g_ptr_array_remove_fast mgr.devices dev }
  match dev.objectPath with
  | none => mgr2
  | some opath =>
    { mgr2 with signals := mgr2.signals ++ [BoltSignal.deviceRemoved opath],
                unexports := mgr2.unexports ++ [dev.uid] }

/-- Embedding of `handle_udev_device_attached` (bolt-manager.c:713-749):
the record transitions via `bolt_device_connected`; when the resulting
status is exactly Connected, the parent is looked up — a present but
unauthorized parent defers, an absent parent only logs a warning and the
authorization check still runs. -/
def handle_udev_device_attached (mgr : BoltManager) (dev : BoltDevice)
    (udev : UdevDevice) : BoltManager :=
  let dev2 := bolt_device_connected dev udev
  let mgr2 := updateDevice mgr dev.uid (fun _ => dev2)
  if dev2.status ≠ BoltStatus.connected then mgr2
  else
    match bolt_manager_get_parent mgr2 dev2 with
    | some parent =>
      if bolt_status_is_authorized parent.status = false then mgr2
      else maybe_authorize_device mgr2 dev2
    | none => maybe_authorize_device mgr2 dev2

/-- The `g_str_has_prefix (name, "domain")` filter of the remove branch:
true when the event device's sysname starts with `"domain"` (a NULL
sysname does not match). -/
def sysname_is_domain (device : UdevDevice) : Bool :=
  match device.sysname with
  | some n => ("domain".toList).isPrefixOf n.toList
  | none => false

/-- The add/change branch of the dispatcher `handle_uevent_udev`
(bolt-manager.c:325-344): events without a `unique_id` attribute are
dropped (this filters the domain controller); otherwise the event is
routed to the added, attached or changed path by table lookup. -/
def handle_uevent_addchange (mgr : BoltManager) (device : UdevDevice) :
    BoltManager :=
  match device.sysattr "unique_id" with
  | none => mgr
  | some uid =>
    match bolt_manager_get_device_by_uid mgr uid with
    | none => handle_udev_device_added mgr device
    | some dev =>
      if bolt_device_is_connected dev = false then
        handle_udev_device_attached mgr dev device
      else
        handle_udev_device_changed mgr dev device

/-- The remove branch of the dispatcher `handle_uevent_udev`
(bolt-manager.c:345-373): events without a syspath, events whose sysname
starts with `"domain"`, and events matching no table entry are dropped;
otherwise the event is routed to the detached (stored) or removed
(unstored) path. -/
def handle_uevent_remove (mgr : BoltManager) (device : UdevDevice) :
    BoltManager :=
  match device.syspath with
  | none => mgr
  | some syspath =>
    if sysname_is_domain device then mgr
    else
      match bolt_manager_get_device_by_syspath mgr syspath with
      | none => mgr
      | some dev =>
        if 0 < dev.store then handle_udev_device_detached mgr dev
        else hanlde_udev_device_removed mgr dev

/-- Embedding of the udev dispatcher `handle_uevent_udev`
(bolt-manager.c:303-376): events without an action are dropped; add and
change events go to the add/change branch, remove events to the remove
branch, anything else is ignored. -/
def handle_uevent_udev (mgr : BoltManager) (action : Option String)
    (device : UdevDevice) : BoltManager :=
  match action with
  | none => mgr
  | some act =>
    if act = "add" ∨ act = "change" then handle_uevent_addchange mgr device
    else if act = "remove" then handle_uevent_remove mgr device
    else mgr

/-- The store interface as the manager consumes it during startup:
`listUids` is the result of `bolt_store_list_uids` (`none` when listing
fails) and `getDevice` is `bolt_store_get_device` (`none` when the record
cannot be loaded). -/
structure BoltStore where
  listUids : Option (List String)
  getDevice : String → Option BoltDevice

/-- The per-uid loading loop of `bolt_manager_initialize`
(bolt-manager.c:429-446): a record that fails to load is logged and
skipped, the loop continues with the remaining uids. -/
def loadLoop (store : BoltStore) : List String → List BoltDevice
  | [] => []
  | uid :: rest =>
    match store.getDevice uid with
    | none => loadLoop store rest
    | some dev => dev :: loadLoop store rest

/-- The store-loading phase of `bolt_manager_initialize`
(bolt-manager.c:422-446): when `bolt_store_list_uids` fails the whole
initialization fails (the daemon aborts); otherwise each listed record is
loaded, unloadable ones being skipped. -/
def bolt_manager_load_store (store : BoltStore) : Option (List BoltDevice) :=
  match store.listUids with
  | none => none
  | some ids => some (loadLoop store ids)

/-! Helper lemmas shared by the claim theorems. -/

theorem lastIdxOf_lt_length {c : Char} :
    ∀ {l : List Char} {i : Nat}, lastIdxOf c l = some i → i < l.length := by
  intro l
  induction l with
  | nil => intro i h; simp [lastIdxOf] at h
  | cons x xs ih =>
    intro i h
    simp only [lastIdxOf] at h
    cases hx : lastIdxOf c xs with
    | some j =>
      rw [hx] at h
      injection h with h'
      subst h'
      have := ih hx
      simp only [List.length_cons]
      omega
    | none =>
      rw [hx] at h
      by_cases hxc : x = c
      · rw [if_pos hxc] at h
        injection h with h'
        subst h'
        simp only [List.length_cons]
        omega
      · rw [if_neg hxc] at h
        cases h

theorem lastIdxOf_eq_none_iff {c : Char} :
    ∀ {l : List Char}, lastIdxOf c l = none ↔ c ∉ l := by
  intro l
  induction l with
  | nil => simp [lastIdxOf]
  | cons x xs ih =>
    simp only [lastIdxOf, List.mem_cons]
    cases hx : lastIdxOf c xs with
    | some j =>
      constructor
      · intro h
        simp at h
      · intro h
        exfalso
        have hnone : lastIdxOf c xs = none := ih.mpr (fun hm => h (Or.inr hm))
        rw [hnone] at hx
        cases hx
    | none =>
      by_cases hxc : x = c
      · rw [if_pos hxc]
        constructor
        · intro h
          simp at h
        · intro h
          exact absurd (Or.inl hxc.symm) h
      · rw [if_neg hxc]
        constructor
        · intro _ hmem
          rcases hmem with h1 | h2
          · exact hxc h1.symm
          · exact (ih.mp hx) h2
        · intro _
          rfl

theorem parentSyspath_eq_claim (s : String) :
    parentSyspath s = parent_syspath_claim s := by
  unfold parentSyspath parent_syspath_claim
  cases h : lastIdxOf '/' (s.toList.drop 4) with
  | none => rfl
  | some i =>
    have hlt : i < (s.toList.drop 4).length := lastIdxOf_lt_length h
    have hlen : ((s.toList.drop 4).take i).length = i := by
      rw [List.length_take]
      omega
    simp only [hlen]
    by_cases h2 : i < 2
    · rw [if_pos h2, if_pos h2]
    · rw [if_neg h2, if_neg h2, Option.some.injEq]
      congr 1
      rw [List.take_add]

theorem loadLoop_eq_filterMap (store : BoltStore) (ids : List String) :
    loadLoop store ids = ids.filterMap store.getDevice := by
  induction ids with
  | nil => rfl
  | cons u rest ih =>
    simp only [loadLoop, List.filterMap_cons]
    cases h : store.getDevice u <;> simp [h, ih]

/-! Claim theorems. -/

/-- C3: `maybe_authorize_device` enqueues an idle authorization task for
the device exactly when the status is not an authorized variant, the policy
is Auto and a store record exists; in every other case (already authorized,
policy not Auto, or — defensively — not stored) the manager state is
returned entirely unchanged. -/
theorem maybe_authorize_device_exact_conditions (mgr : BoltManager) (dev : BoltDevice) :
    maybe_authorize_device mgr dev =
      (if bolt_status_is_authorized dev.status = false ∧
          dev.policy = BoltPolicy.auto ∧ 0 < dev.store
       then { mgr with authQueue := mgr.authQueue ++ [dev.uid] }
       else mgr) := by
  unfold maybe_authorize_device
  split_ifs <;> simp_all

/-- C4: during startup, a failure of `bolt_store_list_uids` makes the
whole store-loading phase (and hence initialization) fail, while a failure
to load an individual record merely drops that uid: the loaded table is
the `filterMap` of the per-uid loads over the listed uids. -/
theorem initialize_store_listing_and_loading (store : BoltStore) :
    (store.listUids = none → bolt_manager_load_store store = none) ∧
    (∀ ids, store.listUids = some ids →
      bolt_manager_load_store store = some (ids.filterMap store.getDevice)) := by
  constructor
  · intro h
    unfold bolt_manager_load_store
    rw [h]
  · intro ids h
    unfold bolt_manager_load_store
    rw [h]
    show some (loadLoop store ids) = some (ids.filterMap store.getDevice)
    rw [loadLoop_eq_filterMap]

/-- Concrete store whose uid listing fails. -/
def c4storeFail : BoltStore :=
  { listUids := none, getDevice := fun _ => none }

/-- Concrete device record loaded from the store in the C4 witness. -/
def c4dev : BoltDevice :=
  { uid := "b", syspath := none, status := BoltStatus.disconnected,
    policy := BoltPolicy.auto, store := 1, objectPath := none }

/-- Concrete store listing two uids of which only one loads. -/
def c4storeOk : BoltStore :=
  { listUids := some ["a", "b"],
    getDevice := fun u => if u = "b" then some c4dev else none }

/-- Witness for C4: the failing listing aborts, the corrupt record "a" is
skipped and loading continues with "b". -/
theorem initialize_store_listing_and_loading_witness :
    bolt_manager_load_store c4storeFail = none ∧
    bolt_manager_load_store c4storeOk = some [c4dev] := by
  constructor
  · exact (initialize_store_listing_and_loading c4storeFail).1 rfl
  · have h := (initialize_store_listing_and_loading c4storeOk).2 ["a", "b"] rfl
    rw [h]
    rfl

/-- C5: for a device with a present syspath, `bolt_manager_get_parent`
computes the lookup key exactly as the specification describes — skip the
sysfs mount point `"/sys"`, cut off the trailing `/`-separated segment
(the key stays rooted at the mount point, as the table's syspaths are) —
and returns the table device with that syspath; the key is `none` exactly
when no `/` remains after the mount point or the truncated remainder is
shorter than two characters. -/
theorem get_parent_strips_trailing_segment (mgr : BoltManager) (dev : BoltDevice)
    (s : String) (h : dev.syspath = some s) :
    bolt_manager_get_parent mgr dev =
      (parent_syspath_claim s).bind
        (fun p => bolt_manager_get_device_by_syspath mgr p) ∧
    (parent_syspath_claim s = none ↔
      ('/' ∉ s.toList.drop 4 ∨
        ∃ i, lastIdxOf '/' (s.toList.drop 4) = some i ∧ i < 2)) := by
  constructor
  · unfold bolt_manager_get_parent
    rw [h]
    show (match parentSyspath s with
          | none => none
          | some p => bolt_manager_get_device_by_syspath mgr p) =
      (parent_syspath_claim s).bind (fun p => bolt_manager_get_device_by_syspath mgr p)
    rw [parentSyspath_eq_claim]
    cases hp : parent_syspath_claim s <;> rfl
  · unfold parent_syspath_claim
    cases hL : lastIdxOf '/' (s.toList.drop 4) with
    | none =>
      constructor
      · intro _
        exact Or.inl (lastIdxOf_eq_none_iff.mp hL)
      · intro _
        rfl
    | some i =>
      have hlt : i < (s.toList.drop 4).length := lastIdxOf_lt_length hL
      have hlen : ((s.toList.drop 4).take i).length = i := by
        rw [List.length_take]
        omega
      simp only [hlen]
      by_cases h2 : i < 2
      · rw [if_pos h2]
        constructor
        · intro _
          exact Or.inr ⟨i, rfl, h2⟩
        · intro _
          rfl
      · rw [if_neg h2]
        constructor
        · intro hcon
          cases hcon
        · intro hcon
          rcases hcon with hno | ⟨j, hj, hj2⟩
          · exfalso
            rw [lastIdxOf_eq_none_iff.mpr hno] at hL
            cases hL
          · injection hj with hj'
            omega

/-- Concrete child device for the C5 witness. -/
def c5child : BoltDevice :=
  { uid := "C", syspath := some "/sys/ab/0-1", status := BoltStatus.connected,
    policy := BoltPolicy.default, store := 0, objectPath := none }

/-- Concrete parent device for the C5 witness. -/
def c5parent : BoltDevice :=
  { uid := "P", syspath := some "/sys/ab", status := BoltStatus.authConnected,
    policy := BoltPolicy.default, store := 1, objectPath := none }

/-- Concrete manager table for the C5 witness. -/
def c5mgr : BoltManager :=
  { devices := [c5parent, c5child], authQueue := [], signals := [],
    unexports := [], busConnected := false }

/-- Witness for C5: on the concrete table, the parent of `/sys/ab/0-1` is
the device at `/sys/ab`. -/
theorem get_parent_strips_trailing_segment_witness :
    bolt_manager_get_parent c5mgr c5child =
      (parent_syspath_claim "/sys/ab/0-1").bind
        (fun p => bolt_manager_get_device_by_syspath c5mgr p) ∧
    bolt_manager_get_parent c5mgr c5child = some c5parent := by
  constructor
  · exact (get_parent_strips_trailing_segment c5mgr c5child "/sys/ab/0-1" rfl).1
  · decide

/-- C6: for devices p and c in the table (records pairwise distinct, which
is what makes the C code's pointer comparison coincide with the value
comparison), c is listed among the children of p exactly when the computed
parent of c is p. -/
theorem children_mem_iff_parent (mgr : BoltManager) (p c : BoltDevice)
    (_hnd : mgr.devices.Nodup) (_hp : p ∈ mgr.devices) (hc : c ∈ mgr.devices) :
    c ∈ bolt_manager_get_children mgr p ↔
      bolt_manager_get_parent mgr c = some p := by
  unfold bolt_manager_get_children
  rw [List.mem_filter]
  simp [hc]

/-- Witness for C6: in the concrete two-device table, the child at
`/sys/ab/0-1` is among the children of the device at `/sys/ab`, and the
theorem converts that into the parent equation. -/
theorem children_mem_iff_parent_witness :
    c5mgr.devices.Nodup ∧ bolt_manager_get_parent c5mgr c5child = some c5parent := by
  constructor
  · decide
  · exact (children_mem_iff_parent c5mgr c5parent c5child (by decide) (by decide)
      (by decide)).mp (by decide)

/-- An integer sysfs attribute cannot be read as an integer when it is
absent or its value does not parse. -/
def sysattr_int_unreadable (d : UdevDevice) (attr : String) : Prop :=
  match d.sysattr attr with
  | none => True
  | some s => bolt_str_parse_as_int s = none

theorem sysattr_int_unreadable_neg (d : UdevDevice) (attr : String)
    (h : sysattr_int_unreadable d attr) :
    sysfs_get_sysattr_value_as_int d attr < 0 := by
  unfold sysattr_int_unreadable at h
  unfold sysfs_get_sysattr_value_as_int
  cases hs : d.sysattr attr with
  | none =>
    show -(d.errnoOf attr : Int) < 0
    have hpos := d.errnoPos attr
    omega
  | some s =>
    have h2 : bolt_str_parse_as_int s = none := by rw [hs] at h; exact h
    simp only [hs, h2]
    decide

theorem sysattr_size_neg_of_none (d : UdevDevice) (attr : String)
    (h : d.sysattr attr = none) :
    sysfs_get_sysattr_size d attr < 0 := by
  unfold sysfs_get_sysattr_size
  rw [h]
  show -(d.errnoOf attr : Int) < 0
  have hpos := d.errnoPos attr
  omega

/-- C7 (amended): whenever the `authorized` attribute of a device cannot be
read as an integer, `bolt_sysfs_info_for_device` returns failure — but the
error it sets lives in the GLib IO-error domain (its code derived from
errno via `g_io_error_from_errno`), not in the Bolt error domain whose
`BOLT_ERROR_UDEV` code is the specification's "UdevError". -/
theorem info_for_device_fails_on_unreadable_authorized (d : UdevDevice)
    (full : Bool) (h : sysattr_int_unreadable d "authorized") :
    bolt_sysfs_info_for_device d full =
      Except.error { domain := GErrorDomain.gIoError,
                     code := -(sysfs_get_sysattr_value_as_int d "authorized") } ∧
    sysfs_get_sysattr_value_as_int d "authorized" < 0 := by
  have hneg := sysattr_int_unreadable_neg d "authorized" h
  constructor
  · simp only [bolt_sysfs_info_for_device]
    rw [if_pos hneg]
  · exact hneg

/-- Concrete device handle with no readable attributes at all, every read
failing with errno ENOENT. -/
def c7udev : UdevDevice :=
  { sysattr := fun _ => none, errnoOf := fun _ => 2,
    errnoPos := fun _ => Nat.succ_pos 1, syspath := none, sysname := none,
    stat := none, parentUniqueId := none }

/-- Counterexample for C7 as stated: at the concrete device whose
`authorized` attribute is unreadable, the snapshot operation does fail, but
the error is in the `G_IO_ERROR` domain, not the `BOLT_ERROR` domain that
carries the specification's `UdevError` kind. -/
theorem info_for_device_error_not_udev_kind :
    bolt_sysfs_info_for_device c7udev false =
      Except.error { domain := GErrorDomain.gIoError, code := 2 } ∧
    GErrorDomain.gIoError ≠ GErrorDomain.boltError := by
  constructor
  · decide
  · decide

/-- Witness for C7 (amended), at the concrete device with an unreadable
`authorized` attribute. -/
theorem info_for_device_fails_on_unreadable_authorized_witness :
    bolt_sysfs_info_for_device c7udev true =
      Except.error { domain := GErrorDomain.gIoError, code := 2 } ∧
    sysfs_get_sysattr_value_as_int c7udev "authorized" < 0 := by
  have h := info_for_device_fails_on_unreadable_authorized c7udev true trivial
  exact ⟨h.1.trans (by decide), h.2⟩

/-- C8 (amended): in every successfully returned info snapshot, the fields
whose value is unknown are marked out of band, but not uniformly with -1:
`keysize` and `boot` are the negated errno of the failed read (a negative
value), `ctim` is -1 exactly because the non-full variant never reads it,
and an unavailable creation time in a full snapshot yields 0. -/
theorem info_unknown_fields_negative (d : UdevDevice) (full : Bool)
    (info : BoltDevInfo)
    (h : bolt_sysfs_info_for_device d full = Except.ok info) :
    (d.sysattr "key" = none → info.keysize < 0) ∧
    (sysattr_int_unreadable d "boot" → info.boot < 0) ∧
    (full = false → info.ctim = -1) ∧
    (full = true → d.syspath = none ∨ d.stat = none → info.ctim = 0) := by
  simp only [bolt_sysfs_info_for_device] at h
  by_cases hauth : sysfs_get_sysattr_value_as_int d "authorized" < 0
  · rw [if_pos hauth] at h
    simp at h
  · rw [if_neg hauth] at h
    cases full with
    | false =>
      rw [if_pos rfl] at h
      injection h with h'
      subst h'
      refine ⟨fun hk => sysattr_size_neg_of_none d "key" hk,
              fun hb => sysattr_int_unreadable_neg d "boot" hb,
              fun _ => rfl, fun hf => ?_⟩
      cases hf
    | true =>
      rw [if_neg (by simp)] at h
      injection h with h'
      subst h'
      refine ⟨fun hk => sysattr_size_neg_of_none d "key" hk,
              fun hb => sysattr_int_unreadable_neg d "boot" hb,
              fun hf => ?_, fun _ hun => ?_⟩
      · cases hf
      · show bolt_sysfs_device_get_time d BoltStatTime.ctime = 0
        unfold bolt_sysfs_device_get_time
        rcases hun with hs | hs <;> rw [hs]
        cases d.syspath <;> rfl

/-- Concrete device whose `authorized` attribute reads 1 while `key`,
`boot` and everything else are unreadable with errno ENOENT. -/
def c8udev : UdevDevice :=
  { sysattr := fun a => if a = "authorized" then some "1" else none,
    errnoOf := fun _ => 2, errnoPos := fun _ => Nat.succ_pos 1,
    syspath := none, sysname := none, stat := none, parentUniqueId := none }

/-- The snapshot `bolt_sysfs_info_for_device` produces for `c8udev`. -/
def c8info : BoltDevInfo :=
  { authorized := 1, keysize := -2, boot := -2, ctim := -1, full := false,
    parent := none, generation := 0, syspath := none, linkspeed := ⟨0, 0, 0, 0⟩ }

/-- Counterexample for C8 as stated: at `c8udev` the snapshot succeeds with
the `key` attribute absent, yet `keysize` is -2 (the negated ENOENT), not
the -1 the claim promises. -/
theorem info_unknown_keysize_not_minus_one :
    bolt_sysfs_info_for_device c8udev false = Except.ok c8info ∧
    c8udev.sysattr "key" = none ∧
    c8info.keysize ≠ -1 := by
  refine ⟨by decide, by decide, by decide⟩

/-- Witness for C8 (amended), at the concrete device `c8udev`. -/
theorem info_unknown_fields_negative_witness :
    bolt_sysfs_info_for_device c8udev false = Except.ok c8info ∧
    c8info.keysize < 0 ∧ c8info.boot < 0 ∧ c8info.ctim = -1 := by
  have h := info_unknown_fields_negative c8udev false c8info (by decide)
  exact ⟨by decide, h.1 rfl, h.2.1 trivial, h.2.2.1 rfl⟩

/-- C10 (amended): `bolt_sysfs_read_boot_acl` succeeds with an absent
(null) list when the attribute does not exist and the read errno is ENOENT,
and when the attribute exists with the empty value (whose comma-split has
no tokens); it fails exactly for reads whose errno differs from ENOENT. -/
theorem boot_acl_read_edge_cases (d : UdevDevice) :
    (d.sysattr "boot_acl" = none → d.errnoOf "boot_acl" = ENOENT →
      bolt_sysfs_read_boot_acl d = Except.ok none) ∧
    (d.sysattr "boot_acl" = none → d.errnoOf "boot_acl" ≠ ENOENT →
      bolt_sysfs_read_boot_acl d =
        Except.error { domain := GErrorDomain.gIoError,
                       code := (d.errnoOf "boot_acl" : Int) }) ∧
    (d.sysattr "boot_acl" = some "" → bolt_sysfs_read_boot_acl d = Except.ok none) ∧
    (∀ e, bolt_sysfs_read_boot_acl d = Except.error e →
      d.sysattr "boot_acl" = none ∧ d.errnoOf "boot_acl" ≠ ENOENT) := by
  refine ⟨fun hn he => ?_, fun hn he => ?_, fun hv => ?_, fun e he => ?_⟩
  · unfold bolt_sysfs_read_boot_acl
    rw [hn]
    show (if d.errnoOf "boot_acl" = ENOENT then _ else _) = _
    rw [if_pos he]
  · unfold bolt_sysfs_read_boot_acl
    rw [hn]
    show (if d.errnoOf "boot_acl" = ENOENT then _ else _) = _
    rw [if_neg he]
  · unfold bolt_sysfs_read_boot_acl
    rw [hv]
    rfl
  · unfold bolt_sysfs_read_boot_acl at he
    cases hs : d.sysattr "boot_acl" with
    | some v =>
      rw [hs] at he
      have he2 : (if bolt_strv_isempty (some (g_strsplit_comma v 1024)) = true
          then (Except.ok none : Except GErr (Option (List String)))
          else Except.ok (some (g_strsplit_comma v 1024))) = Except.error e := he
      split_ifs at he2
    | none =>
      rw [hs] at he
      split_ifs at he with hen
      all_goals try simp at he
      all_goals exact ⟨rfl, hen⟩

/-- Concrete device without a `boot_acl` attribute, errno ENOENT. -/
def c10enoent : UdevDevice :=
  { sysattr := fun _ => none, errnoOf := fun _ => 2,
    errnoPos := fun _ => Nat.succ_pos 1, syspath := none, sysname := none,
    stat := none, parentUniqueId := none }

/-- Concrete device whose `boot_acl` read fails with errno EIO (5). -/
def c10eio : UdevDevice :=
  { sysattr := fun _ => none, errnoOf := fun _ => 5,
    errnoPos := fun _ => Nat.succ_pos 4, syspath := none, sysname := none,
    stat := none, parentUniqueId := none }

/-- Concrete device whose `boot_acl` attribute holds the empty value. -/
def c10empty : UdevDevice :=
  { sysattr := fun a => if a = "boot_acl" then some "" else none,
    errnoOf := fun _ => 2, errnoPos := fun _ => Nat.succ_pos 1,
    syspath := none, sysname := none, stat := none, parentUniqueId := none }

/-- Witness for C10 (amended), at the three concrete devices: ENOENT gives
a null list, EIO fails, the empty value gives a null list. -/
theorem boot_acl_read_edge_cases_witness :
    bolt_sysfs_read_boot_acl c10enoent = Except.ok none ∧
    bolt_sysfs_read_boot_acl c10eio =
      Except.error { domain := GErrorDomain.gIoError, code := 5 } ∧
    bolt_sysfs_read_boot_acl c10empty = Except.ok none := by
  refine ⟨(boot_acl_read_edge_cases c10enoent).1 rfl rfl, ?_,
          (boot_acl_read_edge_cases c10empty).2.2.1 rfl⟩
  have h := (boot_acl_read_edge_cases c10eio).2.1 rfl (by decide)
  exact h.trans (by decide)

/-- Concrete device whose `boot_acl` attribute holds the value `","`,
which splits into two empty strings. -/
def c10comma : UdevDevice :=
  { sysattr := fun a => if a = "boot_acl" then some "," else none,
    errnoOf := fun _ => 2, errnoPos := fun _ => Nat.succ_pos 1,
    syspath := none, sysname := none, stat := none, parentUniqueId := none }

/-- Counterexample for C10 as stated: the value `","` splits into only
empty strings, yet the read returns that list, not the absent (null)
list the claim promises. -/
theorem boot_acl_all_empty_not_null :
    bolt_sysfs_read_boot_acl c10comma = Except.ok (some ["", ""]) ∧
    (["", ""].all (fun s => s.isEmpty)) = true ∧
    Except.ok (some ["", ""]) ≠ (Except.ok none : Except GErr (Option (List String))) := by
  refine ⟨by decide, by decide, by decide⟩

/-- Character-level comma join, mirroring `g_strjoinv_comma`. -/
def joinFields : List (List Char) → List Char
  | [] => []
  | [f] => f
  | f :: rest => f ++ ',' :: joinFields rest

theorem g_strjoinv_comma_toList (acl : List String) :
    (g_strjoinv_comma acl).toList = joinFields (acl.map String.toList) := by
  induction acl with
  | nil => rfl
  | cons s rest ih =>
    cases rest with
    | nil => rfl
    | cons t ts =>
      show (s ++ "," ++ g_strjoinv_comma (t :: ts)).toList =
        s.toList ++ ',' :: joinFields ((t :: ts).map String.toList)
      have h0 : (s ++ "," ++ g_strjoinv_comma (t :: ts)).toList =
          (s.toList ++ [',']) ++ (g_strjoinv_comma (t :: ts)).toList := rfl
      rw [h0, ih, List.append_assoc]
      rfl

theorem splitFirstField_of_not_mem (f : List Char) (h : ',' ∉ f) :
    splitFirstField f = (f, none) := by
  induction f with
  | nil => rfl
  | cons c cs ih =>
    have hc : ¬c = ',' := fun he => h (he ▸ List.mem_cons_self c cs)
    simp only [splitFirstField, if_neg hc]
    rw [ih (fun hm => h (List.mem_cons_of_mem c hm))]

theorem splitFirstField_append (f rest : List Char) (h : ',' ∉ f) :
    splitFirstField (f ++ ',' :: rest) = (f, some rest) := by
  induction f with
  | nil => simp [splitFirstField]
  | cons c cs ih =>
    have hc : ¬c = ',' := fun he => h (he ▸ List.mem_cons_self c cs)
    simp only [List.cons_append, splitFirstField, if_neg hc]
    show (c :: (splitFirstField (cs ++ ',' :: rest)).1,
          (splitFirstField (cs ++ ',' :: rest)).2) = (c :: cs, some rest)
    rw [ih (fun hm => h (List.mem_cons_of_mem c hm))]

theorem splitFields_joinFields :
    ∀ (fs : List (List Char)) (fuel : Nat), fs ≠ [] →
      (∀ f ∈ fs, ',' ∉ f) → fs.length ≤ fuel + 1 →
      splitFields fuel (joinFields fs) = fs := by
  intro fs
  induction fs with
  | nil => intro fuel hne _ _; exact absurd rfl hne
  | cons f rest ih =>
    intro fuel _ hcf hlen
    cases rest with
    | nil =>
      show splitFields fuel f = [f]
      cases fuel with
      | zero => rfl
      | succ n =>
        show (match splitFirstField f with
              | (g, none) => [g]
              | (g, some r) => g :: splitFields n r) = [f]
        rw [splitFirstField_of_not_mem f (hcf f (List.mem_cons_self f []))]
    | cons t ts =>
      cases fuel with
      | zero =>
        exfalso
        simp only [List.length_cons] at hlen
        omega
      | succ n =>
        show (match splitFirstField (f ++ ',' :: joinFields (t :: ts)) with
              | (g, none) => [g]
              | (g, some r) => g :: splitFields n r) = f :: t :: ts
        rw [splitFirstField_append f (joinFields (t :: ts))
          (hcf f (List.mem_cons_self f (t :: ts)))]
        show f :: splitFields n (joinFields (t :: ts)) = f :: t :: ts
        rw [ih n (by simp) (fun g hg => hcf g (List.mem_cons_of_mem f hg))
          (by simp only [List.length_cons] at hlen ⊢; omega)]

theorem joinFields_ne_nil (fs : List (List Char)) (hne : fs ≠ [])
    (h1 : ∃ f, f ∈ fs ∧ f ≠ []) : joinFields fs ≠ [] := by
  cases fs with
  | nil => exact absurd rfl hne
  | cons f rest =>
    cases rest with
    | nil =>
      obtain ⟨g, hg, hgne⟩ := h1
      have : g = f := by simpa using hg
      subst this
      exact hgne
    | cons t ts =>
      show f ++ ',' :: joinFields (t :: ts) ≠ []
      simp

theorem g_strsplit_of_join (acl : List String) (hne : acl ≠ [])
    (h1 : ∃ s, s ∈ acl ∧ s ≠ "") (h2 : acl.length ≤ 1024)
    (h3 : ∀ s, s ∈ acl → ',' ∉ s.toList) :
    g_strsplit_comma (g_strjoinv_comma acl) 1024 = acl := by
  have hmapne : acl.map String.toList ≠ [] := by
    intro hx
    exact hne (List.map_eq_nil_iff.mp hx)
  have hmapex : ∃ f, f ∈ acl.map String.toList ∧ f ≠ [] := by
    obtain ⟨s, hs, hsne⟩ := h1
    refine ⟨s.toList, List.mem_map_of_mem String.toList hs, fun hx => hsne ?_⟩
    have := congrArg String.mk hx
    simpa using this
  have hjoin : (g_strjoinv_comma acl).toList ≠ [] := by
    rw [g_strjoinv_comma_toList]
    exact joinFields_ne_nil (acl.map String.toList) hmapne hmapex
  have hempty : (g_strjoinv_comma acl).toList.isEmpty = false := by
    cases hc : (g_strjoinv_comma acl).toList with
    | nil => exact absurd hc hjoin
    | cons c cs => rfl
  unfold g_strsplit_comma
  rw [hempty]
  show (splitFields 1023 (g_strjoinv_comma acl).toList).map (fun l => String.mk l) = acl
  rw [g_strjoinv_comma_toList]
  rw [splitFields_joinFields (acl.map String.toList) 1023 hmapne
    (by
      intro f hf
      obtain ⟨s, hs, hfs⟩ := List.mem_map.mp hf
      exact hfs ▸ h3 s hs)
    (by
      rw [List.length_map]
      omega)]
  rw [List.map_map]
  have hid : ((fun l => String.mk l) ∘ String.toList) = id := by
    funext s
    rfl
  rw [hid, List.map_id]

/-- C9 (amended): for every list of strings with at least one non-empty
element, at most 1024 elements and no element containing a comma, writing
the list through the boot-ACL write and reading the written attribute value
back through the boot-ACL read yields exactly the same list (in particular,
equal modulo trailing empty slots). -/
theorem boot_acl_roundtrip (acl : List String) (d : UdevDevice)
    (h1 : ∃ s, s ∈ acl ∧ s ≠ "") (h2 : acl.length ≤ 1024)
    (h3 : ∀ s, s ∈ acl → ',' ∉ s.toList)
    (hd : d.sysattr "boot_acl" = some (bolt_sysfs_write_boot_acl_value acl)) :
    bolt_sysfs_read_boot_acl d = Except.ok (some acl) := by
  have hne : acl ≠ [] := by
    obtain ⟨s, hs, _⟩ := h1
    intro hx
    rw [hx] at hs
    cases hs
  have hsplit := g_strsplit_of_join acl hne h1 h2 h3
  unfold bolt_sysfs_read_boot_acl
  rw [hd]
  show (if bolt_strv_isempty
          (some (g_strsplit_comma (bolt_sysfs_write_boot_acl_value acl) 1024)) = true
        then (Except.ok none : Except GErr (Option (List String)))
        else Except.ok (some (g_strsplit_comma (bolt_sysfs_write_boot_acl_value acl) 1024)))
      = Except.ok (some acl)
  unfold bolt_sysfs_write_boot_acl_value
  rw [hsplit]
  have hbe : bolt_strv_isempty (some acl) = false := by
    unfold bolt_strv_isempty
    cases acl with
    | nil => exact absurd rfl hne
    | cons a as => rfl
  rw [hbe]
  simp

/-- Concrete device whose `boot_acl` attribute holds exactly the value the
boot-ACL write produces for `["a", "b"]`. -/
def c9udev : UdevDevice :=
  { sysattr := fun a => if a = "boot_acl"
      then some (bolt_sysfs_write_boot_acl_value ["a", "b"]) else none,
    errnoOf := fun _ => 2, errnoPos := fun _ => Nat.succ_pos 1,
    syspath := none, sysname := none, stat := none, parentUniqueId := none }

/-- Witness for C9 (amended): writing `["a", "b"]` and reading back yields
`["a", "b"]`. -/
theorem boot_acl_roundtrip_witness :
    bolt_sysfs_read_boot_acl c9udev = Except.ok (some ["a", "b"]) := by
  exact boot_acl_roundtrip ["a", "b"] c9udev
    ⟨"a", by decide, by decide⟩ (by decide) (by decide) rfl

/-- Drops trailing empty strings; the "modulo trailing empty slots"
comparison of the claim. -/
def dropTrailingEmpty (l : List String) : List String :=
  (l.reverse.dropWhile (fun s => s.isEmpty)).reverse

/-- Concrete device whose `boot_acl` attribute holds exactly the value the
boot-ACL write produces for the one-element list `["a,b"]`. -/
def c9cxudev : UdevDevice :=
  { sysattr := fun a => if a = "boot_acl"
      then some (bolt_sysfs_write_boot_acl_value ["a,b"]) else none,
    errnoOf := fun _ => 2, errnoPos := fun _ => Nat.succ_pos 1,
    syspath := none, sysname := none, stat := none, parentUniqueId := none }

/-- Counterexample for C9 as stated: the list `["a,b"]` has one non-empty
element and at most 1024 elements, yet writing it and reading back yields
`["a", "b"]`, which differs from `["a,b"]` even modulo trailing empty
slots. -/
theorem boot_acl_roundtrip_counterexample :
    (["a,b"] : List String).length ≤ 1024 ∧
    ("a,b" : String) ≠ "" ∧
    bolt_sysfs_read_boot_acl c9cxudev = Except.ok (some ["a", "b"]) ∧
    dropTrailingEmpty ["a", "b"] ≠ dropTrailingEmpty ["a,b"] := by
  refine ⟨by decide, by decide, by decide, by decide⟩

theorem handle_udev_device_attached_eq (mgr : BoltManager) (dev : BoltDevice)
    (udev : UdevDevice) :
    handle_udev_device_attached mgr dev udev =
      (if (bolt_device_connected dev udev).status ≠ BoltStatus.connected
       then updateDevice mgr dev.uid (fun _ => bolt_device_connected dev udev)
       else
         match bolt_manager_get_parent
             (updateDevice mgr dev.uid (fun _ => bolt_device_connected dev udev))
             (bolt_device_connected dev udev) with
         | some parent =>
           if bolt_status_is_authorized parent.status = false
           then updateDevice mgr dev.uid (fun _ => bolt_device_connected dev udev)
           else maybe_authorize_device
             (updateDevice mgr dev.uid (fun _ => bolt_device_connected dev udev))
             (bolt_device_connected dev udev)
         | none => maybe_authorize_device
             (updateDevice mgr dev.uid (fun _ => bolt_device_connected dev udev))
             (bolt_device_connected dev udev)) := rfl

theorem handle_udev_device_changed_eq (mgr : BoltManager) (dev : BoltDevice)
    (udev : UdevDevice) :
    handle_udev_device_changed mgr dev udev =
      (if bolt_status_is_authorized (bolt_device_update_from_udev dev udev).status = false
       then updateDevice mgr dev.uid (fun _ => bolt_device_update_from_udev dev udev)
       else (bolt_manager_get_children
           (updateDevice mgr dev.uid (fun _ => bolt_device_update_from_udev dev udev))
           (bolt_device_update_from_udev dev udev)).foldl
         maybe_authorize_device
         (updateDevice mgr dev.uid (fun _ => bolt_device_update_from_udev dev udev))) := rfl

/-- C1 (amended): in the attached path, once the device's status became
exactly Connected, a parent that is present in the table but not authorized
defers — the handler stops after the table update, enqueueing nothing —
while an absent parent only draws a warning and the authorization check
still runs; a deferred child is reconsidered by the changed path, which
runs the authorization check over every child of a device whose refreshed
status is authorized. -/
theorem attached_parent_gating (mgr : BoltManager) (dev : BoltDevice)
    (udev : UdevDevice)
    (hconn : (bolt_device_connected dev udev).status = BoltStatus.connected) :
    (∀ p, bolt_manager_get_parent
        (updateDevice mgr dev.uid (fun _ => bolt_device_connected dev udev))
        (bolt_device_connected dev udev) = some p →
      bolt_status_is_authorized p.status = false →
      handle_udev_device_attached mgr dev udev =
        updateDevice mgr dev.uid (fun _ => bolt_device_connected dev udev) ∧
      (handle_udev_device_attached mgr dev udev).authQueue = mgr.authQueue) ∧
    (bolt_manager_get_parent
        (updateDevice mgr dev.uid (fun _ => bolt_device_connected dev udev))
        (bolt_device_connected dev udev) = none →
      handle_udev_device_attached mgr dev udev =
        maybe_authorize_device
          (updateDevice mgr dev.uid (fun _ => bolt_device_connected dev udev))
          (bolt_device_connected dev udev)) ∧
    (∀ (mgrc : BoltManager) (devc : BoltDevice) (udevc : UdevDevice),
      bolt_status_is_authorized (bolt_device_update_from_udev devc udevc).status = true →
      handle_udev_device_changed mgrc devc udevc =
        (bolt_manager_get_children
            (updateDevice mgrc devc.uid
              (fun _ => bolt_device_update_from_udev devc udevc))
            (bolt_device_update_from_udev devc udevc)).foldl
          maybe_authorize_device
          (updateDevice mgrc devc.uid
            (fun _ => bolt_device_update_from_udev devc udevc))) := by
  refine ⟨fun p hp hnauth => ?_, fun hp => ?_, fun mgrc devc udevc hauth => ?_⟩
  · have heq : handle_udev_device_attached mgr dev udev =
        updateDevice mgr dev.uid (fun _ => bolt_device_connected dev udev) := by
      rw [handle_udev_device_attached_eq]
      rw [if_neg (by rw [hconn]; simp)]
      rw [hp]
      show (if bolt_status_is_authorized p.status = false
            then updateDevice mgr dev.uid (fun _ => bolt_device_connected dev udev)
            else maybe_authorize_device
              (updateDevice mgr dev.uid (fun _ => bolt_device_connected dev udev))
              (bolt_device_connected dev udev)) =
        updateDevice mgr dev.uid (fun _ => bolt_device_connected dev udev)
      rw [if_pos hnauth]
    exact ⟨heq, by rw [heq]; rfl⟩
  · rw [handle_udev_device_attached_eq]
    rw [if_neg (by rw [hconn]; simp)]
    rw [hp]
  · rw [handle_udev_device_changed_eq]
    rw [if_neg (by rw [hauth]; simp)]

/-- Concrete udev snapshot for the known device X reappearing at
`/sys/ab/0-1` with `authorized = 0`. -/
def c1udev : UdevDevice :=
  { sysattr := fun a => if a = "unique_id" then some "X"
      else if a = "authorized" then some "0" else none,
    errnoOf := fun _ => 2, errnoPos := fun _ => Nat.succ_pos 1,
    syspath := some "/sys/ab/0-1", sysname := some "0-1",
    stat := none, parentUniqueId := none }

/-- Concrete known stored Auto device X, currently Disconnected. -/
def c1dev : BoltDevice :=
  { uid := "X", syspath := none, status := BoltStatus.disconnected,
    policy := BoltPolicy.auto, store := 1, objectPath := none }

/-- Concrete manager table holding only X. -/
def c1mgr : BoltManager :=
  { devices := [c1dev], authQueue := [], signals := [], unexports := [],
    busConnected := false }

/-- Counterexample for C1 as stated: dispatching the add event for the
known Disconnected stored Auto device X, whose parent is absent from the
table, still enqueues an authorization task — the attached path merely
logs a warning when no parent is found and proceeds to the authorization
check. -/
theorem attached_absent_parent_still_authorizes :
    bolt_manager_get_parent
        (updateDevice c1mgr c1dev.uid (fun _ => bolt_device_connected c1dev c1udev))
        (bolt_device_connected c1dev c1udev) = none ∧
    c1mgr.authQueue = [] ∧
    (handle_uevent_udev c1mgr (some "add") c1udev).authQueue = ["X"] := by
  refine ⟨by decide, rfl, by decide⟩

/-- Concrete parent device at `/sys/ab`, connected but not authorized. -/
def c1wP : BoltDevice :=
  { uid := "P", syspath := some "/sys/ab", status := BoltStatus.connected,
    policy := BoltPolicy.default, store := 1, objectPath := none }

/-- Concrete stored Auto child device C, currently Disconnected. -/
def c1wC : BoltDevice :=
  { uid := "C", syspath := none, status := BoltStatus.disconnected,
    policy := BoltPolicy.auto, store := 1, objectPath := none }

/-- Concrete udev snapshot of C reappearing below P. -/
def c1wudev : UdevDevice :=
  { sysattr := fun a => if a = "unique_id" then some "C"
      else if a = "authorized" then some "0" else none,
    errnoOf := fun _ => 2, errnoPos := fun _ => Nat.succ_pos 1,
    syspath := some "/sys/ab/0-1", sysname := some "0-1",
    stat := none, parentUniqueId := none }

/-- Concrete manager table holding P and C. -/
def c1wmgr : BoltManager :=
  { devices := [c1wP, c1wC], authQueue := [], signals := [], unexports := [],
    busConnected := false }

/-- Witness for C1 (amended): with the unauthorized parent P present in
the table, attaching C defers — the handler performs only the table update
and the authorization queue stays unchanged. -/
theorem attached_parent_gating_witness :
    bolt_manager_get_parent
        (updateDevice c1wmgr c1wC.uid (fun _ => bolt_device_connected c1wC c1wudev))
        (bolt_device_connected c1wC c1wudev) = some c1wP ∧
    bolt_status_is_authorized c1wP.status = false ∧
    handle_udev_device_attached c1wmgr c1wC c1wudev =
      updateDevice c1wmgr c1wC.uid (fun _ => bolt_device_connected c1wC c1wudev) ∧
    (handle_udev_device_attached c1wmgr c1wC c1wudev).authQueue = c1wmgr.authQueue := by
  have h := (attached_parent_gating c1wmgr c1wC c1wudev (by decide)).1 c1wP
    (by decide) rfl
  exact ⟨by decide, rfl, h.1, h.2⟩

theorem handle_uevent_udev_remove_eq (mgr : BoltManager) (device : UdevDevice) :
    handle_uevent_udev mgr (some "remove") device =
      handle_uevent_remove mgr device := by
  unfold handle_uevent_udev
  show (if (("remove" : String) = "add" ∨ ("remove" : String) = "change")
        then handle_uevent_addchange mgr device
        else if ("remove" : String) = "remove" then handle_uevent_remove mgr device
        else mgr) = handle_uevent_remove mgr device
  rw [if_neg (by decide), if_pos rfl]

/-- C2 (amended): a remove event carrying a syspath and a non-domain
sysname that matches a table device goes down one of two paths. Stored:
the record stays in the table (table length unchanged), transitions to
Disconnected, and no signal is emitted. Unstored: the record is dropped
from the table and, when it had been exported (it carries an object path),
`DeviceRemoved (path)` is emitted and the device is unexported — when it
carries no object path the handler returns right after the table removal,
with no signal and no unexport. Remove events whose sysname starts with
`"domain"` or whose syspath matches no table entry change nothing. -/
theorem remove_event_paths (mgr : BoltManager) (device : UdevDevice)
    (sp : String) (dev : BoltDevice)
    (hsp : device.syspath = some sp)
    (hname : sysname_is_domain device = false)
    (hfind : bolt_manager_get_device_by_syspath mgr sp = some dev) :
    (0 < dev.store →
      handle_uevent_udev mgr (some "remove") device =
        { mgr with devices := (mgr.devices.map
            (fun d => if d.uid = dev.uid then bolt_device_disconnected d else d)) } ∧
      (handle_uevent_udev mgr (some "remove") device).signals = mgr.signals ∧
      (handle_uevent_udev mgr (some "remove") device).devices.length =
        mgr.devices.length) ∧
    (dev.store = 0 →
      (handle_uevent_udev mgr (some "remove") device).devices =
        g_ptr_array_remove_fast mgr.devices dev ∧
      (∀ op, dev.objectPath = some op →
        handle_uevent_udev mgr (some "remove") device =
          { mgr with devices := g_ptr_array_remove_fast mgr.devices dev,
                     signals := mgr.signals ++ [BoltSignal.deviceRemoved op],
                     unexports := mgr.unexports ++ [dev.uid] }) ∧
      (dev.objectPath = none →
        handle_uevent_udev mgr (some "remove") device =
          { mgr with devices := g_ptr_array_remove_fast mgr.devices dev })) ∧
    (∀ (device2 : UdevDevice), sysname_is_domain device2 = true →
      handle_uevent_udev mgr (some "remove") device2 = mgr ∨
      device2.syspath = none) ∧
    (∀ (device3 : UdevDevice) (sp3 : String), device3.syspath = some sp3 →
      sysname_is_domain device3 = false →
      bolt_manager_get_device_by_syspath mgr sp3 = none →
      handle_uevent_udev mgr (some "remove") device3 = mgr) := by
  have hbranch : handle_uevent_udev mgr (some "remove") device =
      (if 0 < dev.store then handle_udev_device_detached mgr dev
       else hanlde_udev_device_removed mgr dev) := by
    rw [handle_uevent_udev_remove_eq]
    unfold handle_uevent_remove
    rw [hsp]
    show (if sysname_is_domain device = true then mgr
          else match bolt_manager_get_device_by_syspath mgr sp with
               | none => mgr
               | some dev =>
                 if 0 < dev.store then handle_udev_device_detached mgr dev
                 else hanlde_udev_device_removed mgr dev) = _
    rw [hname, if_neg (by simp), hfind]
  refine ⟨fun h0 => ?_, fun h0 => ?_, fun device2 hdom => ?_, fun device3 sp3 h3a h3b h3c => ?_⟩
  · have heq : handle_uevent_udev mgr (some "remove") device =
        { mgr with devices := (mgr.devices.map
            (fun d => if d.uid = dev.uid then bolt_device_disconnected d else d)) } := by
      rw [hbranch, if_pos h0]
      rfl
    exact ⟨heq, by rw [heq], by rw [heq]; simp⟩
  · rw [hbranch, if_neg (by omega)]
    refine ⟨?_, fun op hop => ?_, fun hop => ?_⟩
    · unfold hanlde_udev_device_removed
      cases dev.objectPath <;> rfl
    · unfold hanlde_udev_device_removed
      rw [hop]
    · unfold hanlde_udev_device_removed
      rw [hop]
  · cases h2 : device2.syspath with
    | none => exact Or.inr rfl
    | some sp2 =>
      refine Or.inl ?_
      rw [handle_uevent_udev_remove_eq]
      unfold handle_uevent_remove
      rw [h2]
      show (if sysname_is_domain device2 = true then mgr
            else match bolt_manager_get_device_by_syspath mgr sp2 with
                 | none => mgr
                 | some dev =>
                   if 0 < dev.store then handle_udev_device_detached mgr dev
                   else hanlde_udev_device_removed mgr dev) = mgr
      rw [hdom, if_pos rfl]
  · rw [handle_uevent_udev_remove_eq]
    unfold handle_uevent_remove
    rw [h3a]
    show (if sysname_is_domain device3 = true then mgr
          else match bolt_manager_get_device_by_syspath mgr sp3 with
               | none => mgr
               | some dev =>
                 if 0 < dev.store then handle_udev_device_detached mgr dev
                 else hanlde_udev_device_removed mgr dev) = mgr
    rw [h3b, if_neg (by simp), h3c]

/-- Concrete stored, authorized, exported device Z at `/sys/ab/0-1`. -/
def c2sdev : BoltDevice :=
  { uid := "Z", syspath := some "/sys/ab/0-1",
    status := BoltStatus.authConnected, policy := BoltPolicy.manual,
    store := 1, objectPath := some "/org/freedesktop/Bolt/devices/Z" }

/-- Concrete unstored, exported device Y at `/sys/ab/0-2`. -/
def c2ydev : BoltDevice :=
  { uid := "Y", syspath := some "/sys/ab/0-2", status := BoltStatus.connected,
    policy := BoltPolicy.default, store := 0,
    objectPath := some "/org/freedesktop/Bolt/devices/Y" }

/-- Concrete manager table holding Z (stored) and Y (unstored). -/
def c2mgr : BoltManager :=
  { devices := [c2sdev, c2ydev], authQueue := [], signals := [],
    unexports := [], busConnected := true }

/-- Concrete remove event device for Z's syspath. -/
def c2sudev : UdevDevice :=
  { sysattr := fun _ => none, errnoOf := fun _ => 2,
    errnoPos := fun _ => Nat.succ_pos 1, syspath := some "/sys/ab/0-1",
    sysname := some "0-1", stat := none, parentUniqueId := none }

/-- Concrete remove event device for Y's syspath. -/
def c2yudev : UdevDevice :=
  { sysattr := fun _ => none, errnoOf := fun _ => 2,
    errnoPos := fun _ => Nat.succ_pos 1, syspath := some "/sys/ab/0-2",
    sysname := some "0-2", stat := none, parentUniqueId := none }

/-- Witness for C2 (amended): removing stored Z keeps it in the table as
Disconnected with no signal; removing unstored, exported Y drops it from
the table, emits `DeviceRemoved` and unexports it. -/
theorem remove_event_paths_witness :
    0 < c2sdev.store ∧
    handle_uevent_udev c2mgr (some "remove") c2sudev =
      { c2mgr with devices := (c2mgr.devices.map
          (fun d => if d.uid = c2sdev.uid then bolt_device_disconnected d else d)) } ∧
    handle_uevent_udev c2mgr (some "remove") c2yudev =
      { c2mgr with devices := g_ptr_array_remove_fast c2mgr.devices c2ydev,
                   signals := c2mgr.signals ++
                     [BoltSignal.deviceRemoved "/org/freedesktop/Bolt/devices/Y"],
                   unexports := c2mgr.unexports ++ ["Y"] } := by
  refine ⟨by decide, ?_, ?_⟩
  · exact ((remove_event_paths c2mgr c2sudev "/sys/ab/0-1" c2sdev rfl (by decide)
      (by decide)).1 (by decide)).1
  · exact (((remove_event_paths c2mgr c2yudev "/sys/ab/0-2" c2ydev rfl (by decide)
      (by decide)).2.1 rfl).2.1 "/org/freedesktop/Bolt/devices/Y" rfl)

/-- Concrete unstored device with no object path (added while no D-Bus
connection was available, hence never exported). -/
def c2xdev : BoltDevice :=
  { uid := "W", syspath := some "/sys/ab/0-3", status := BoltStatus.connected,
    policy := BoltPolicy.default, store := 0, objectPath := none }

/-- Concrete manager table holding only the unexported W. -/
def c2xmgr : BoltManager :=
  { devices := [c2xdev], authQueue := [], signals := [], unexports := [],
    busConnected := false }

/-- Concrete remove event device for W's syspath. -/
def c2xudev : UdevDevice :=
  { sysattr := fun _ => none, errnoOf := fun _ => 2,
    errnoPos := fun _ => Nat.succ_pos 1, syspath := some "/sys/ab/0-3",
    sysname := some "0-3", stat := none, parentUniqueId := none }

/-- Counterexample for C2 as stated: the remove event for the unstored,
never-exported device W does drop it from the table, but no
`DeviceRemoved` signal is emitted and nothing is unexported — the handler
returns as soon as it sees the NULL object path. -/
theorem remove_unexported_no_signal :
    bolt_manager_get_device_by_syspath c2xmgr "/sys/ab/0-3" = some c2xdev ∧
    c2xdev.store = 0 ∧
    (handle_uevent_udev c2xmgr (some "remove") c2xudev).devices = [] ∧
    (handle_uevent_udev c2xmgr (some "remove") c2xudev).signals = [] ∧
    (handle_uevent_udev c2xmgr (some "remove") c2xudev).unexports = [] := by
  refine ⟨by decide, by decide, by decide, by decide, by decide⟩

end Boltd
